import Mathlib

set_option maxRecDepth 10000

/-
Verification development for the smart-librarian repository.

The Python modules are shallowly embedded as pure Lean functions:

* `src/vector_store.py`  — `VectorStore.search` over an abstract index
  state (the ChromaDB collection plus the embedding provider are external;
  a fixed index state is a deterministic map from a query string and a
  result count to either a failure or a ranked list of raw hits with
  distances).  Distances and scores are modelled as rationals.
* `src/retriever.py`     — `search_books`, `search_with_scores`,
  `get_similar_books` of class `BookRetriever` (the books cache is passed
  explicitly as a list).
* `src/data_loader.py`   — `parse_markdown_books`, `load_books_data`,
  `validate_data_consistency` (file contents passed as values; raised
  exceptions become `Except.error` with the formatted message).
* `src/tools.py`         — `get_summary_by_title`, `execute_tool_call`
  (the loaded summaries dictionary is passed as an association list).
* `src/safety.py`        — `normalize_text`, `contains_offensive_words`,
  `contains_offensive_patterns`, `is_aggressive_tone`, `is_offensive`
  over `List Char` (a Python `str` is a sequence of code points).
* `src/llm.py`           — `_prepare_messages` and `chat` of class
  `SmartLibrarian`; the two OpenAI chat-completion calls are oracles
  passed as `Except`-valued arguments, `raise`/`except` paths become the
  corresponding `Except` branches.
-/

namespace SmartLibrarian

/-- Single-quote character as a one-character string, used when building
the Python error-message strings of the source. -/
def squote : String := String.singleton (Char.ofNat 39)

/-- Python `list[-n:]`: the last `n` elements (all of them when the list
is shorter than `n`). -/
def pyLastN (n : Nat) (l : List α) : List α := l.drop (l.length - n)

/-- `schema.Book` (pydantic model): title, short summary, themes and the
optional detailed summary. -/
structure Book where
  title : String
  short_summary : String
  themes : List String
  detailed_summary : Option String := none
deriving DecidableEq, Repr

/-- One raw hit as returned by `collection.query` in
`VectorStore.search`: the metadata title and themes, the stored document
and the reported distance. -/
structure RawHit where
  title : String
  themes : List String
  document : String
  distance : ℚ
deriving DecidableEq, Repr

/-- One formatted result of `VectorStore.search` (the dict built in its
result loop). -/
structure FormattedHit where
  title : String
  themes : List String
  document : String
  distance : ℚ
  score : ℚ
deriving DecidableEq, Repr

/-- A fixed vector-index state: what `get_embedding` followed by
`collection.query` yields for a given query string and `n_results`.
`Except.error` covers an exception raised by either external call. -/
def VSQuery : Type := String → Nat → Except String (List RawHit)

/-- `VectorStore.search` (src/vector_store.py): query the collection and
convert each distance to a similarity score `1 - distance`; any raised
exception is caught and the empty list returned. -/
def vs_search (st : VSQuery) (query : String) (top_k : Nat) : List FormattedHit :=
  match st query top_k with
  | Except.error _ => []
  | Except.ok raws =>
    raws.map (fun r => ⟨r.title, r.themes, r.document, r.distance, 1 - r.distance⟩)

/-- `BookRetriever._get_book_by_title`: first book in the cache whose
title matches exactly. -/
def get_book_by_title (books : List Book) (title : String) : Option Book :=
  books.find? (fun b => b.title == title)

/-- `BookRetriever.search_books`: resolve each hit title back to a Book,
dropping hits whose title is not in the cache; exceptions are caught and
the empty list returned (none are raised in the embedded fragment). -/
def search_books (st : VSQuery) (books : List Book) (query : String) (top_k : Nat) :
    List Book :=
  (vs_search st query top_k).filterMap (fun r => get_book_by_title books r.title)

/-- `BookRetriever.search_with_scores`: like `search_books` but keeping
each resolved hit paired with its score. -/
def search_with_scores (st : VSQuery) (books : List Book) (query : String) (top_k : Nat) :
    List (Book × ℚ) :=
  (vs_search st query top_k).filterMap
    (fun r => (get_book_by_title books r.title).map (fun b => (b, r.score)))

/-- The query string `get_similar_books` builds from the reference
book's summary and themes. -/
def mk_similar_query (b : Book) : String :=
  b.short_summary ++ (". Teme: ") ++ String.intercalate (", ") b.themes

/-- `BookRetriever.get_similar_books`: resolve the reference title
(returning `[]` when absent), search for `top_k + 1` results with a
query built from its summary and themes, drop every result carrying the
reference title and truncate to `top_k`. -/
def get_similar_books (st : VSQuery) (books : List Book) (book_title : String)
    (top_k : Nat) : List Book :=
  match get_book_by_title books book_title with
  | none => []
  | some ref =>
    ((search_books st books (mk_similar_query ref) (top_k + 1)).filter
      (fun b => b.title != book_title)).take top_k

/-- Two concrete catalog entries used for concrete evaluations. -/
def bookA : Book := ⟨"Cartea A", "Un rezumat despre prietenie.", ["prietenie", "curaj"], none⟩

/-- Second concrete catalog entry. -/
def bookB : Book := ⟨"Cartea B", "Un rezumat despre aventura.", ["aventura"], none⟩

/-- A two-entry corpus cache. -/
def demo_books : List Book := [bookA, bookB]

/-- An index state that ranks `Cartea A` first and `Cartea B` second for
every query. -/
def demo_state : VSQuery := fun _ _ =>
  Except.ok [⟨"Cartea A", ["prietenie", "curaj"], "doc A", 0⟩,
             ⟨"Cartea B", ["aventura"], "doc B", (1 : ℚ)/4⟩]

/-- An index state whose query always fails (embedding provider or
collection raising). -/
def err_query_state (msg : String) : VSQuery := fun _ _ => Except.error msg

/-- An entirely empty index: every query returns no hits. -/
def empty_index_state : VSQuery := fun _ _ => Except.ok []

/-- An index state reporting a raw distance of `3/2` (as an L2-style
distance larger than 1) for its single hit. -/
def bad_distance_state : VSQuery := fun _ _ =>
  Except.ok [⟨"Cartea A", ["prietenie", "curaj"], "doc A", (3 : ℚ)/2⟩]

/-- Dropping the scores from the scored resolution loop yields the
unscored resolution loop. -/
theorem filterMap_scores_fst (books : List Book) (l : List FormattedHit) :
    l.filterMap (fun r => get_book_by_title books r.title) =
      (l.filterMap (fun r => (get_book_by_title books r.title).map (fun b => (b, r.score)))).map
        Prod.fst := by
  induction l with
  | nil => rfl
  | cons hd tl ih =>
    simp only [List.filterMap_cons]
    cases h : get_book_by_title books hd.title <;> simp [h, ih]

/-- Claim C7: for every index state, corpus cache, query and topK,
`search_books` returns exactly the books of `search_with_scores` with
the scores dropped and the rank order preserved. -/
theorem search_books_drops_scores (st : VSQuery) (books : List Book) (query : String)
    (top_k : Nat) :
    search_books st books query top_k =
      (search_with_scores st books query top_k).map Prod.fst := by
  unfold search_books search_with_scores
  exact filterMap_scores_fst books _

/-- Claim C1: for a corpus with at least two entries containing the
reference title and any topK ≥ 1, `get_similar_books` searches for
`topK + 1` results with the query built from the reference entry, never
returns a book carrying the reference title, returns at most `topK`
books, and the returned list is an order-preserving sublist of the
underlying search result. -/
theorem get_similar_books_excludes_reference (st : VSQuery) (books : List Book)
    (book_title : String) (top_k : Nat)
    (hcorpus : 2 ≤ books.length)
    (hmem : ∃ b ∈ books, b.title = book_title)
    (hk : 1 ≤ top_k) :
    ∃ ref, get_book_by_title books book_title = some ref ∧
      get_similar_books st books book_title top_k =
        ((search_books st books (mk_similar_query ref) (top_k + 1)).filter
          (fun b => b.title != book_title)).take top_k ∧
      (∀ b ∈ get_similar_books st books book_title top_k, b.title ≠ book_title) ∧
      (get_similar_books st books book_title top_k).length ≤ top_k ∧
      (get_similar_books st books book_title top_k).Sublist
        (search_books st books (mk_similar_query ref) (top_k + 1)) := by
  obtain ⟨b, hb, hbt⟩ := hmem
  have hfind : ∃ ref, get_book_by_title books book_title = some ref := by
    unfold get_book_by_title
    cases hf : books.find? (fun b => b.title == book_title) with
    | none =>
      exfalso
      have := List.find?_eq_none.mp hf b hb
      simp [hbt] at this
    | some r => exact ⟨r, rfl⟩
  obtain ⟨ref, href⟩ := hfind
  have hres : get_similar_books st books book_title top_k =
      ((search_books st books (mk_similar_query ref) (top_k + 1)).filter
        (fun b => b.title != book_title)).take top_k := by
    unfold get_similar_books
    rw [href]
  refine ⟨ref, href, hres, ?_, ?_, ?_⟩
  · intro c hcmem
    rw [hres] at hcmem
    have hcf := (List.take_subset _ _) hcmem
    have := List.of_mem_filter hcf
    simpa using this
  · rw [hres]
    exact List.length_take_le _ _
  · rw [hres]
    exact (List.take_sublist _ _).trans (List.filter_sublist _)

/-- Witness for claim C1 at a concrete two-book corpus, reference title
present and topK = 1. -/
theorem get_similar_books_excludes_reference_witness :
    2 ≤ demo_books.length ∧
    (∃ b ∈ demo_books, b.title = "Cartea A") ∧
    (∃ ref, get_book_by_title demo_books ("Cartea A") = some ref ∧
      get_similar_books demo_state demo_books ("Cartea A") 1 =
        ((search_books demo_state demo_books (mk_similar_query ref) (1 + 1)).filter
          (fun b => b.title != "Cartea A")).take 1 ∧
      (∀ b ∈ get_similar_books demo_state demo_books ("Cartea A") 1,
        b.title ≠ "Cartea A") ∧
      (get_similar_books demo_state demo_books ("Cartea A") 1).length ≤ 1 ∧
      (get_similar_books demo_state demo_books ("Cartea A") 1).Sublist
        (search_books demo_state demo_books (mk_similar_query ref) (1 + 1))) :=
  ⟨by decide, ⟨bookA, by decide, rfl⟩,
    get_similar_books_excludes_reference demo_state demo_books ("Cartea A") 1
      (by decide) ⟨bookA, by decide, rfl⟩ (by decide)⟩

/-- Counterexample for claim C3: when the index query fails, or the
index is entirely empty, both retriever search operations return the
empty list as a normal result instead of failing. -/
theorem retriever_failure_counterexample :
    search_books (err_query_state ("embedding unavailable")) demo_books ("prietenie") 3
      = [] ∧
    search_with_scores (err_query_state ("embedding unavailable")) demo_books
      ("prietenie") 3 = [] ∧
    search_books empty_index_state demo_books ("prietenie") 3 = [] ∧
    search_with_scores empty_index_state demo_books ("prietenie") 3 = [] :=
  ⟨rfl, rfl, rfl, rfl⟩

/-- Claim C3 (amended): on a failed index query or an entirely empty
index, `search_books` and `search_with_scores` return the empty list (a
normal result; the exception is caught and logged); hits whose id
resolves to no catalog entry are dropped while the remaining hits
continue to be resolved in order. -/
theorem retriever_failure_returns_empty (msg query : String) (books : List Book)
    (top_k : Nat) :
    search_books (err_query_state msg) books query top_k = [] ∧
    search_with_scores (err_query_state msg) books query top_k = [] ∧
    search_books empty_index_state books query top_k = [] ∧
    search_with_scores empty_index_state books query top_k = [] ∧
    (∀ st : VSQuery, ∀ b ∈ search_books st books query top_k,
      ∃ r ∈ vs_search st query top_k, get_book_by_title books r.title = some b) ∧
    (∀ st : VSQuery,
      (search_books st books query top_k).length ≤ (vs_search st query top_k).length) := by
  refine ⟨rfl, rfl, rfl, rfl, ?_, ?_⟩
  · intro st b hbmem
    unfold search_books at hbmem
    obtain ⟨r, hr, hres⟩ := List.mem_filterMap.mp hbmem
    exact ⟨r, hr, hres⟩
  · intro st
    exact List.length_filterMap_le _ _

/-- Witness for claim C3 (amended) at a concrete failing state. -/
theorem retriever_failure_returns_empty_witness :
    search_books (err_query_state ("down")) demo_books ("q") 3 = [] ∧
    search_with_scores (err_query_state ("down")) demo_books ("q") 3 = [] :=
  ⟨(retriever_failure_returns_empty ("down") ("q") demo_books 3).1,
   (retriever_failure_returns_empty ("down") ("q") demo_books 3).2.1⟩

/-- Claim C2 (failing input): with an index state reporting a raw
distance of 3/2 for its hit — an L2 distance larger than 1, which the
external index can return — `search_with_scores` produces the score
`1 - 3/2 = -1/2`, which lies outside `[0, 1]`; the repository's own test
(tests/test_retriever.py) asserts `0 <= score <= 1`. -/
theorem search_with_scores_negative_score :
    search_with_scores bad_distance_state demo_books ("tema oarecare") 1 =
      [(bookA, -((1 : ℚ)/2))] ∧
    ¬ (0 ≤ -((1 : ℚ)/2)) := by
  constructor
  · norm_num [search_with_scores, vs_search, bad_distance_state, get_book_by_title,
      demo_books, bookA, bookB, List.filterMap, List.find?]
  · norm_num

/-- Double-quote character as a one-character string. -/
def dquote : String := String.singleton (Char.ofNat 34)

/-- Python `repr` of a string, as it appears when a list of titles is
interpolated into an f-string: the string wrapped in single quotes (the
titles at hand contain no quote characters). -/
def py_repr_str (s : String) : String := squote ++ s ++ squote

/-- Python f-string rendering of a list of strings: `[...]` with
comma-separated `repr`s. -/
def py_repr_str_list (l : List String) : String :=
  ("[") ++ String.intercalate (", ") (l.map py_repr_str) ++ ("]")

/-- Python f-string rendering of a set of strings, in the iteration
order of the modelling list. -/
def py_repr_str_set (l : List String) : String :=
  String.singleton (Char.ofNat 123) ++ String.intercalate (", ") (l.map py_repr_str) ++
    String.singleton (Char.ofNat 125)

/-- Python `dict.get` / `in` on a `title -> value` dictionary, modelled
as first-occurrence lookup in an association list. -/
def dict_get (d : List (String × String)) (k : String) : Option String :=
  (d.find? (fun p => p.1 == k)).map Prod.snd

/-- Python `str.strip()`: drop whitespace from both ends of a sequence
of code points (ASCII whitespace; the sources at hand use no exotic
Unicode whitespace). -/
def pyStrip (l : List Char) : List Char :=
  ((l.dropWhile Char.isWhitespace).reverse.dropWhile Char.isWhitespace).reverse

/-- Recursion core of `pySplit`: split at each left-to-right
non-overlapping occurrence of the (non-empty) separator.  Fuel-based so
that the recursion is structural and reduces inside the kernel; the
fuel never runs out when it starts above the list length, since each
step consumes at least one character. -/
def pySplitGo (sep : List Char) : Nat → List Char → List (List Char)
  | 0, l => [l]
  | _ + 1, [] => [[]]
  | fuel + 1, c :: cs =>
    if sep.isPrefixOf (c :: cs) then
      [] :: pySplitGo sep fuel ((c :: cs).drop sep.length)
    else
      match pySplitGo sep fuel cs with
      | [] => [[c]]
      | t :: ts => (c :: t) :: ts

/-- Python `str.split(sep)` with a literal separator (also the meaning
of `re.split` on a pattern with no metacharacters): `"".split(sep)` is
`[""]`, separators split left-to-right without overlap. -/
def pySplit (sep : List Char) (l : List Char) : List (List Char) :=
  if sep = [] then [l] else pySplitGo sep (l.length + 1) l

/-- Python `str.replace(pat, repl)` for a non-empty `pat`: replace every
left-to-right non-overlapping occurrence; split-and-rejoin semantics. -/
def pyReplace (pat repl : List Char) (l : List Char) : List Char :=
  List.intercalate repl (pySplit pat l)

/-- The body of the per-block loop of `parse_markdown_books`
(src/data_loader.py): skip a block of fewer than 3 lines, extract the
title from the first line and scan the remaining lines for the
`Rezumat scurt:` and `Teme:` prefixes, and keep the block only when
title, summary and themes list are all non-empty (Python truthiness);
otherwise the block is skipped with no error. -/
def parse_block_step (acc : List Book) (sect : List Char) : List Book :=
  let lines := pySplit (("\n").data) (pyStrip sect)
  if lines.length < 3 then acc
  else
    let title := pyStrip (lines.headD [])
    let st := (lines.drop 1).foldl
      (fun (st : List Char × List (List Char)) line =>
        let line := pyStrip line
        if (("Rezumat scurt:").data).isPrefixOf line then
          (pyStrip (pyReplace (("Rezumat scurt:").data) [] line), st.2)
        else if (("Teme:").data).isPrefixOf line then
          (st.1,
            (pySplit ((",").data)
              (pyStrip (pyReplace (("Teme:").data) [] line))).map pyStrip)
        else st)
      (([], []))
    if title ≠ [] ∧ st.1 ≠ [] ∧ st.2 ≠ [] then
      acc ++ [⟨String.mk title, String.mk st.1, st.2.map String.mk, none⟩]
    else acc

/-- `parse_markdown_books` (src/data_loader.py): split the file content
on the `\n## Title: ` heading pattern, skip the leading section, and
run the per-block loop.  (The `FileNotFoundError` branch concerns the
filesystem and is outside the embedding; the content is a value.) -/
def parse_markdown_books (content : String) : List Book :=
  ((pySplit (("\n## Title: ").data) content.data).drop 1).foldl parse_block_step []

/-- The `missing_summaries` list computed by `load_books_data`: parsed
titles that have no detailed summary. -/
def missing_detailed (md_content : String) (detailed_summaries : List (String × String)) :
    List String :=
  ((parse_markdown_books md_content).filter
    (fun b => (dict_get detailed_summaries b.title).isNone)).map (fun b => b.title)

/-- `load_books_data` (src/data_loader.py): parse the markdown source,
then fail iff some parsed book's title has no detailed summary, else
attach the detailed summaries.  Only this one direction is checked. -/
def load_books_data (md_content : String) (detailed_summaries : List (String × String)) :
    Except String (List Book × List (String × String)) :=
  let books := parse_markdown_books md_content
  let missing_summaries := missing_detailed md_content detailed_summaries
  if missing_summaries ≠ [] then
    Except.error (("Missing detailed summaries for: ") ++ py_repr_str_list missing_summaries)
  else
    Except.ok
      (books.map (fun b => { b with detailed_summary := dict_get detailed_summaries b.title }),
        detailed_summaries)

/-- The `md_titles - json_titles` set difference of
`validate_data_consistency`, in first-occurrence order. -/
def md_minus_json (md_content : String) (detailed_summaries : List (String × String)) :
    List String :=
  (((parse_markdown_books md_content).map Book.title).filter
    (fun t => !((detailed_summaries.map Prod.fst).contains t))).dedup

/-- The `json_titles - md_titles` set difference of
`validate_data_consistency`, in first-occurrence order. -/
def json_minus_md (md_content : String) (detailed_summaries : List (String × String)) :
    List String :=
  ((detailed_summaries.map Prod.fst).filter
    (fun t => !(((parse_markdown_books md_content).map Book.title).contains t))).dedup

/-- `validate_data_consistency` (src/data_loader.py): compare the title
sets of the two sources and fail when they differ, reporting each
non-empty one-sided difference. -/
def validate_data_consistency (md_content : String)
    (detailed_summaries : List (String × String)) : Except String Bool :=
  let missing_in_json := md_minus_json md_content detailed_summaries
  let missing_in_md := json_minus_md md_content detailed_summaries
  if missing_in_json = [] ∧ missing_in_md = [] then Except.ok true
  else
    Except.error (String.intercalate (". ")
      ((if missing_in_json ≠ [] then
          [("Titles in MD but not in JSON: ") ++ py_repr_str_set missing_in_json]
        else []) ++
       (if missing_in_md ≠ [] then
          [("Titles in JSON but not in MD: ") ++ py_repr_str_set missing_in_md]
        else [])))

/-- A short-summary source declaring a single well-formed block. -/
def md_only_A : String :=
  ("# Rezumate\n\n## Title: Cartea A\nRezumat scurt: Un rezumat despre prietenie.\nTeme: prietenie, curaj\n")

/-- A short-summary source declaring two blocks, the second lacking a
`Teme:` line. -/
def md_with_malformed : String :=
  ("# Rezumate\n\n## Title: Cartea A\nRezumat scurt: Un rezumat despre prietenie.\nTeme: prietenie, curaj\n\n## Title: Cartea B\nRezumat scurt: Alt rezumat.\nLinie fara teme")

/-- A detailed-summary source with entries for two titles. -/
def json_AB : List (String × String) :=
  [("Cartea A", "Rezumat detaliat A"), ("Cartea B", "Rezumat detaliat B")]

/-- A block accepted by the per-block loop has a non-empty title, a
non-empty summary and a non-empty themes list; blocks failing the check
leave the accumulator unchanged. -/
theorem parse_block_step_valid (acc : List Book) (sect : List Char)
    (h : ∀ b ∈ acc, b.title ≠ ("") ∧ b.short_summary ≠ ("") ∧ b.themes ≠ []) :
    ∀ b ∈ parse_block_step acc sect,
      b.title ≠ ("") ∧ b.short_summary ≠ ("") ∧ b.themes ≠ [] := by
  intro b hb
  unfold parse_block_step at hb
  dsimp only at hb
  split at hb
  · exact h b hb
  · split at hb
    · rename_i hcond
      rcases List.mem_append.mp hb with hmem | hmem
      · exact h b hmem
      · simp only [List.mem_singleton] at hmem
        subst hmem
        obtain ⟨h1, h2, h3⟩ := hcond
        refine ⟨?_, ?_, ?_⟩
        · simpa [String.ext_iff] using h1
        · simpa [String.ext_iff] using h2
        · simpa using h3
    · exact h b hb

/-- Folding the per-block loop over any sections keeps every produced
book valid. -/
theorem parse_foldl_valid (sections : List (List Char)) (acc : List Book)
    (h : ∀ b ∈ acc, b.title ≠ ("") ∧ b.short_summary ≠ ("") ∧ b.themes ≠ []) :
    ∀ b ∈ sections.foldl parse_block_step acc,
      b.title ≠ ("") ∧ b.short_summary ≠ ("") ∧ b.themes ≠ [] := by
  induction sections generalizing acc with
  | nil => simpa using h
  | cons s rest ih =>
    intro b hb
    exact ih (parse_block_step acc s) (parse_block_step_valid acc s h) b hb

/-- Counterexample for claim C5: a source declaring two blocks, the
second lacking a `Teme:` line, parses without any failure into a single
book — the malformed block is silently dropped rather than rejected
with `MalformedEntry`. -/
theorem parse_markdown_books_silent_drop :
    parse_markdown_books md_with_malformed = [bookA] ∧
    ((pySplit (("\n## Title: ").data) md_with_malformed.data).drop 1).length = 2 := by
  constructor
  · decide
  · decide

/-- Claim C5 (amended): `parse_markdown_books` never fails on a
malformed block; instead, a block lacking a non-empty title, a
non-empty summary line or a non-empty themes list is silently skipped,
so every returned entry has a non-empty title, summary and themes
list.  Declared titles can therefore be dropped without any error. -/
theorem parse_markdown_books_validates (content : String) :
    ∀ b ∈ parse_markdown_books content,
      b.title ≠ ("") ∧ b.short_summary ≠ ("") ∧ b.themes ≠ [] := by
  unfold parse_markdown_books
  exact parse_foldl_valid _ [] (by simp)

/-- Witness for claim C5 (amended) at a concrete well-formed source. -/
theorem parse_markdown_books_validates_witness :
    bookA ∈ parse_markdown_books md_only_A ∧
    (bookA.title ≠ ("") ∧ bookA.short_summary ≠ ("") ∧ bookA.themes ≠ []) :=
  ⟨by decide, parse_markdown_books_validates md_only_A bookA (by decide)⟩

/-- `dict_get` succeeds exactly on the keys of the dictionary. -/
theorem dict_get_isSome_iff (ds : List (String × String)) (t : String) :
    (dict_get ds t).isSome ↔ t ∈ ds.map Prod.fst := by
  unfold dict_get
  cases hf : List.find? (fun p => p.1 == t) ds with
  | none =>
    simp only [Option.map_none', Option.isSome_none, Bool.false_eq_true, false_iff]
    intro hmem
    obtain ⟨p, hp, hpt⟩ := List.mem_map.mp hmem
    have := List.find?_eq_none.mp hf p hp
    simp [hpt] at this
  | some p =>
    simp only [Option.map_some', Option.isSome_some, true_iff]
    have heq := List.find?_some hf
    have hmem := List.mem_of_find?_eq_some hf
    rw [beq_iff_eq] at heq
    rw [← heq]
    exact List.mem_map_of_mem Prod.fst hmem

/-- Counterexample for claim C6: with a short-summary source declaring
only `Cartea A` and a detailed-summary source containing both
`Cartea A` and `Cartea B`, the title sets differ (the difference lies
entirely on the detailed-summary side), yet `load_books_data`
succeeds; only `validate_data_consistency` fails. -/
theorem load_books_data_mismatch_counterexample :
    (load_books_data md_only_A json_AB).isOk = true ∧
    json_minus_md md_only_A json_AB = [("Cartea B")] ∧
    (validate_data_consistency md_only_A json_AB).isOk = false := by
  refine ⟨by decide, by decide, by decide⟩

/-- Claim C6 (amended): `validate_data_consistency` fails exactly when
the two title sets differ in either direction (reporting the non-empty
one-sided differences), while `load_books_data` fails exactly when
some short-summary title lacks a detailed summary: titles present only
in the detailed-summary source are tolerated by `load_books_data`. -/
theorem load_ignores_json_only_titles (md_content : String)
    (ds : List (String × String)) :
    ((validate_data_consistency md_content ds).isOk = true ↔
      md_minus_json md_content ds = [] ∧ json_minus_md md_content ds = []) ∧
    ((load_books_data md_content ds).isOk = true ↔
      missing_detailed md_content ds = []) ∧
    (md_minus_json md_content ds = [] → (load_books_data md_content ds).isOk = true) := by
  have hval : (validate_data_consistency md_content ds).isOk = true ↔
      md_minus_json md_content ds = [] ∧ json_minus_md md_content ds = [] := by
    unfold validate_data_consistency
    dsimp only
    split
    · rename_i hcond
      simp [Except.isOk, Except.toBool, hcond]
    · rename_i hcond
      simp only [Except.isOk, Except.toBool, Bool.false_eq_true, false_iff]
      exact hcond
  have hload : (load_books_data md_content ds).isOk = true ↔
      missing_detailed md_content ds = [] := by
    unfold load_books_data
    dsimp only
    split
    · rename_i hcond
      simp only [Except.isOk, Except.toBool, Bool.false_eq_true, false_iff]
      exact hcond
    · rename_i hcond
      simp only [ne_eq, Decidable.not_not] at hcond
      simp [Except.isOk, Except.toBool, hcond]
  refine ⟨hval, hload, ?_⟩
  intro hmj
  rw [hload]
  unfold missing_detailed
  rw [List.map_eq_nil_iff, List.filter_eq_nil_iff]
  unfold md_minus_json at hmj
  rw [List.dedup_eq_nil, List.filter_eq_nil_iff] at hmj
  intro b hb
  have hc := hmj b.title (List.mem_map_of_mem Book.title hb)
  have hcont : ((ds.map Prod.fst).contains b.title) = true := by
    cases hcc : ((ds.map Prod.fst).contains b.title) with
    | true => rfl
    | false => rw [hcc] at hc; simp at hc
  have hmem : b.title ∈ ds.map Prod.fst := by
    simpa [List.contains, List.elem_iff] using hcont
  have hsome := (dict_get_isSome_iff ds b.title).mpr hmem
  intro hnone
  rw [Option.isNone_iff_eq_none] at hnone
  rw [hnone] at hsome
  simp at hsome

/-- Witness for claim C6 (amended): with every short-summary title
covered, `load_books_data` succeeds despite the extra detailed-summary
title. -/
theorem load_ignores_json_only_titles_witness :
    md_minus_json md_only_A json_AB = [] ∧
    (load_books_data md_only_A json_AB).isOk = true :=
  ⟨by decide, (load_ignores_json_only_titles md_only_A json_AB).2.2 (by decide)⟩

/-- Python `str(KeyError(msg))`: the `repr` of the message string;
`repr` wraps in double quotes because the message contains a single
quote (and no double quote). -/
def py_keyerror_str (msg : String) : String := dquote ++ msg ++ dquote

/-- The message of the `KeyError` raised by `get_summary_by_title` for
an unknown title.  The available titles are only written to the error
log, not to this message. -/
def unknown_title_msg (title : String) : String :=
  ("Cartea ") ++ squote ++ title ++ squote ++ (" nu a fost găsită în baza de date.")

/-- `get_summary_by_title` (src/tools.py) over the loaded summaries
dictionary: exact-match lookup, raising `KeyError` (modelled as
`Except.error` with the exception message) when the title is absent. -/
def get_summary_by_title (summaries : List (String × String)) (title : String) :
    Except String String :=
  match dict_get summaries title with
  | none => Except.error (unknown_title_msg title)
  | some s => Except.ok s

/-- `execute_tool_call` (src/tools.py): reject an unregistered tool
name (`AVAILABLE_TOOLS` holds only `get_summary_by_title`); otherwise
unpack the arguments dictionary into the tool function — a dictionary
other than exactly `⦃title: v⦄` raises `TypeError` at the call, whose
text we abbreviate — and wrap any exception from the call into a
`ValueError` whose message embeds the `str()` of the inner
exception. -/
def execute_tool_call (summaries : List (String × String)) (tool_name : String)
    (arguments : List (String × String)) : Except String String :=
  if tool_name ≠ ("get_summary_by_title") then
    Except.error (("Tool ") ++ squote ++ tool_name ++ squote ++
      (" not found. Available tools: [") ++ squote ++ ("get_summary_by_title") ++
      squote ++ ("]"))
  else
    match arguments with
    | [(k, v)] =>
      if k = ("title") then
        match get_summary_by_title summaries v with
        | Except.ok s => Except.ok s
        | Except.error m =>
          Except.error (("Eroare la executarea tool-ului get_summary_by_title: ") ++
            py_keyerror_str m)
      else
        Except.error (("Eroare la executarea tool-ului get_summary_by_title: ") ++
          ("unexpected keyword argument ") ++ squote ++ k ++ squote)
    | _ =>
      Except.error (("Eroare la executarea tool-ului get_summary_by_title: ") ++
        ("invalid arguments"))

/-- The loaded summaries dictionary used for concrete evaluation. -/
def demo_summaries : List (String × String) :=
  [("1984", "Rezumat detaliat pentru 1984.")]

/-- The error message `execute_tool_call` produces for the unknown
title `Cartea Necunoscuta` — it names the queried title only. -/
def c4_unknown_msg : String :=
  ("Eroare la executarea tool-ului get_summary_by_title: ") ++
    py_keyerror_str (unknown_title_msg ("Cartea Necunoscuta"))

/-- Counterexample for claim C4: executing `get_summary_by_title` on an
unknown title fails, but the error message does not enumerate the
available titles — the only known title, `1984`, does not occur in
it. -/
theorem execute_tool_call_message_lacks_titles :
    execute_tool_call demo_summaries ("get_summary_by_title")
      [(("title"), ("Cartea Necunoscuta"))] = Except.error c4_unknown_msg ∧
    ¬ (("1984").data <:+: c4_unknown_msg.data) := by
  constructor
  · rfl
  · decide

/-- Claim C4 (amended): for every summaries dictionary and title,
executing `get_summary_by_title` through `execute_tool_call` on an
absent title fails with the wrapped `KeyError` whose message names the
queried title but does not enumerate the available titles (those are
only logged), and on a present title returns exactly the stored
detailed summary string. -/
theorem execute_tool_call_spec (summaries : List (String × String)) (title : String) :
    (dict_get summaries title = none →
      execute_tool_call summaries ("get_summary_by_title") [(("title"), title)] =
        Except.error (("Eroare la executarea tool-ului get_summary_by_title: ") ++
          py_keyerror_str (unknown_title_msg title))) ∧
    (∀ s, dict_get summaries title = some s →
      execute_tool_call summaries ("get_summary_by_title") [(("title"), title)] =
        Except.ok s) := by
  constructor
  · intro h
    simp [execute_tool_call, get_summary_by_title, h]
  · intro s h
    simp [execute_tool_call, get_summary_by_title, h]

/-- Witness for claim C4 (amended): the stored summary for `1984` is
returned verbatim, and an unknown title yields the wrapped error. -/
theorem execute_tool_call_spec_witness :
    dict_get demo_summaries ("1984") = some ("Rezumat detaliat pentru 1984.") ∧
    execute_tool_call demo_summaries ("get_summary_by_title") [(("title"), ("1984"))] =
      Except.ok ("Rezumat detaliat pentru 1984.") ∧
    dict_get demo_summaries ("Alta Carte") = none ∧
    execute_tool_call demo_summaries ("get_summary_by_title")
      [(("title"), ("Alta Carte"))] =
      Except.error (("Eroare la executarea tool-ului get_summary_by_title: ") ++
        py_keyerror_str (unknown_title_msg ("Alta Carte"))) :=
  ⟨rfl, (execute_tool_call_spec demo_summaries ("1984")).2 _ rfl, rfl,
    (execute_tool_call_spec demo_summaries ("Alta Carte")).1 rfl⟩

/-- Accumulator core of `pyWords`; the accumulator holds the current
word reversed. -/
def pyWordsAux (acc : List Char) : List Char → List (List Char)
  | [] => if acc.isEmpty then [] else [acc.reverse]
  | c :: cs =>
    if c.isWhitespace then
      if acc.isEmpty then pyWordsAux [] cs
      else acc.reverse :: pyWordsAux [] cs
    else pyWordsAux (c :: acc) cs

/-- Python `str.split()` with no argument: split on whitespace runs,
dropping empty pieces. -/
def pyWords (l : List Char) : List (List Char) := pyWordsAux [] l

/-- A word character for the `\\w` class of Python `re` (Unicode
letters, digits and underscore; non-ASCII code points — here the
Romanian diacritics — are letters and are treated as word
characters). -/
def isWordChar (c : Char) : Bool := c.isAlphanum || c == ('_') || 127 < c.toNat

/-- One pass of `re.sub` collapsing each whitespace run into a single
space; the flag records whether the previous character was
whitespace. -/
def collapseWs : Bool → List Char → List Char
  | _, [] => []
  | prevWs, c :: cs =>
    if c.isWhitespace then
      if prevWs then collapseWs true cs
      else (' ') :: collapseWs true cs
    else c :: collapseWs false cs

/-- `normalize_text` (src/safety.py): lowercase, strip and collapse
whitespace, then replace every character that is neither a word
character nor whitespace by a space.  (`Char.toLower` lowers the ASCII
range; the offensive-word set is already lowercase and the claims at
hand do not depend on non-ASCII case folding.) -/
def normalize_text (l : List Char) : List Char :=
  let t := l.map Char.toLower
  let t := collapseWs false (pyStrip t)
  t.map (fun c => if isWordChar c || c.isWhitespace then c else (' '))

/-- `OFFENSIVE_WORDS` (src/safety.py): the module-level set literal
together with the words spliced in from `config.OFFENSIVE_WORDS`
(src/core/config.py); membership is what matters, so the Python set is
modelled as a list with duplicates. -/
def OFFENSIVE_WORDS : List (List Char) :=
  [("injurii").data, ("blasfemii").data, ("vulgară").data, ("obscenități").data,
   ("jigniri").data, ("ură").data, ("violență").data, ("agresiv").data,
   ("amenințare").data, ("discriminare").data,
   ("hate").data, ("violence").data, ("offensive").data, ("racism").data,
   ("sexism").data, ("discrimination").data, ("harassment").data, ("threat").data,
   ("abuse").data,
   ("obscenități").data, ("injurii").data, ("blasfemii").data, ("vulgară").data,
   ("agresiv").data, ("violent").data, ("hate").data, ("racist").data,
   ("sexist").data]

/-- `contains_offensive_words` (src/safety.py): some whitespace-split
word of the normalized text lies in the offensive-word set. -/
def contains_offensive_words (l : List Char) : Bool :=
  (pyWords (normalize_text l)).any (fun w => OFFENSIVE_WORDS.contains w)

/-- Does the token list contain an adjacent pair with the first token
drawn from `first` and the next from `second`?  This is `re.search` of
`\\b(a|b)\\s+(c|d)\\b` over normalized text, whose only non-word
characters are spaces, so word boundaries coincide with token
boundaries and `\\s+` with token adjacency. -/
def hasAdjacentPair (first second : List (List Char)) : List (List Char) → Bool
  | [] => false
  | [_] => false
  | a :: b :: rest =>
    (first.contains a && second.contains b) || hasAdjacentPair first second (b :: rest)

/-- `contains_offensive_patterns` (src/safety.py): the six
`OFFENSIVE_PATTERNS` regexes evaluated over the normalized text.  After
`normalize_text` the text consists of word characters and spaces only,
so each `\\b(w1|w2)\\b` pattern holds iff some token equals one of the
alternatives, and the two-part `hate speech` pattern holds iff the two
tokens are adjacent. -/
def contains_offensive_patterns (l : List Char) : Bool :=
  let toks := pyWords (normalize_text l)
  hasAdjacentPair [("hate").data, ("ură").data] [("speech").data, ("vorbire").data]
      toks ||
    toks.any (fun t => ([("kill").data, ("ucide").data, ("omor").data]).contains t) ||
    toks.any (fun t => ([("violence").data, ("violență").data]).contains t) ||
    toks.any (fun t => ([("racist").data, ("rasist").data]).contains t) ||
    toks.any (fun t => ([("sexist").data]).contains t) ||
    toks.any (fun t => ([("discrimination").data, ("discriminare").data]).contains t)

/-- Python `str.isupper()`: at least one cased character and no
lowercase character (cased characters modelled over ASCII). -/
def pyIsUpper (w : List Char) : Bool :=
  w.any (fun c => c.isUpper || c.isLower) && w.all (fun c => !(c.isLower))

/-- The `caps_words` count of `is_aggressive_tone`: whitespace-split
words of the raw text that are all-caps and longer than 2. -/
def caps_word_count (l : List Char) : Nat :=
  (pyWords l).countP (fun w => pyIsUpper w && decide (2 < w.length))

/-- `is_aggressive_tone` (src/safety.py): more than 3 exclamation marks
in the raw text, or more than 2 all-caps words of length > 2. -/
def is_aggressive_tone (l : List Char) : Bool :=
  decide (3 < l.count ('!')) || decide (2 < caps_word_count l)

/-- `is_offensive` (src/safety.py): empty or whitespace-only text is
never offensive; otherwise the word-set, regex-pattern and
aggressive-tone checks are tried in order, any one sufficing.  (The
enclosing `try/except` returns `False` on an exception; none of the
embedded checks raises.) -/
def is_offensive (l : List Char) : Bool :=
  if l.isEmpty || (pyStrip l).isEmpty then false
  else
    contains_offensive_words l || contains_offensive_patterns l || is_aggressive_tone l

/-- A character surviving `dropWhile p` when it falsifies `p`. -/
theorem mem_dropWhile_of_not {p : Char → Bool} {c : Char} {l : List Char}
    (hc : c ∈ l) (hp : p c = false) : c ∈ l.dropWhile p := by
  induction l with
  | nil => cases hc
  | cons d ds ih =>
    rw [List.dropWhile_cons]
    split
    · rename_i hd
      rcases List.mem_cons.mp hc with rfl | hc2
      · rw [hp] at hd; cases hd
      · exact ih hc2
    · exact hc

/-- A list containing a non-whitespace character strips to a non-empty
result. -/
theorem pyStrip_ne_nil {c : Char} {l : List Char} (hc : c ∈ l)
    (hw : c.isWhitespace = false) : pyStrip l ≠ [] := by
  intro hnil
  unfold pyStrip at hnil
  rw [List.reverse_eq_nil_iff, List.dropWhile_eq_nil_iff] at hnil
  have h1 : c ∈ l.dropWhile Char.isWhitespace := mem_dropWhile_of_not hc hw
  have h2 : c ∈ (l.dropWhile Char.isWhitespace).reverse := List.mem_reverse.mpr h1
  have := hnil c h2
  rw [hw] at this
  cases this

/-- Every character of a word produced by `pyWordsAux` comes from the
accumulator or the remaining input. -/
theorem pyWordsAux_chars (l : List Char) :
    ∀ acc : List Char, ∀ w ∈ pyWordsAux acc l, ∀ c ∈ w, c ∈ acc ∨ c ∈ l := by
  induction l with
  | nil =>
    intro acc w hw c hc
    unfold pyWordsAux at hw
    split at hw
    · cases hw
    · simp only [List.mem_singleton] at hw
      subst hw
      exact Or.inl (List.mem_reverse.mp hc)
  | cons d ds ih =>
    intro acc w hw c hc
    unfold pyWordsAux at hw
    split at hw
    · split at hw
      · rcases ih [] w hw c hc with h | h
        · cases h
        · exact Or.inr (List.mem_cons_of_mem d h)
      · rcases List.mem_cons.mp hw with rfl | hw2
        · exact Or.inl (List.mem_reverse.mp hc)
        · rcases ih [] w hw2 c hc with h | h
          · cases h
          · exact Or.inr (List.mem_cons_of_mem d h)
    · rcases ih (d :: acc) w hw c hc with h | h
      · rcases List.mem_cons.mp h with rfl | h2
        · exact Or.inr (List.mem_cons_self _ _)
        · exact Or.inl h2
      · exact Or.inr (List.mem_cons_of_mem d h)

/-- A cased (ASCII-letter) character is not whitespace. -/
theorem cased_not_ws (c : Char) (h : (c.isUpper || c.isLower) = true) :
    c.isWhitespace = false := by
  cases hw : c.isWhitespace
  · rfl
  · exfalso
    have hl : c = (' ') ∨ c = ('\t') ∨ c = ('\r') ∨ c = ('\n') := by
      have hw2 := hw
      simp only [Char.isWhitespace, Bool.or_eq_true, decide_eq_true_eq] at hw2
      tauto
    rcases hl with rfl | rfl | rfl | rfl <;> revert h <;> decide

/-- Claim C8: `is_offensive` is `false` for the empty string and every
whitespace-only string (never raising — it is a total function), and
`true` for every text with more than 3 exclamation marks or more than 2
all-caps words of length > 2, the aggressive-tone heuristic being OR'd
with the word-set and regex checks. -/
theorem is_offensive_spec (l : List Char) :
    (pyStrip l = [] → is_offensive l = false) ∧
    (3 < l.count ('!') → is_offensive l = true) ∧
    (2 < caps_word_count l → is_offensive l = true) := by
  refine ⟨?_, ?_, ?_⟩
  · intro h
    simp [is_offensive, h]
  · intro h
    have hmem : ('!') ∈ l := List.count_pos_iff.mp (by omega)
    have hne : pyStrip l ≠ [] := pyStrip_ne_nil hmem (by decide)
    have hlne : l ≠ [] := List.ne_nil_of_mem hmem
    simp [is_offensive, List.isEmpty_iff, hne, hlne, is_aggressive_tone, h]
  · intro h
    have hex : ∃ w ∈ pyWords l, (pyIsUpper w && decide (2 < w.length)) = true := by
      rw [← List.countP_pos_iff]
      unfold caps_word_count at h
      omega
    obtain ⟨w, hwmem, hwp⟩ := hex
    rw [Bool.and_eq_true] at hwp
    have hup := hwp.1
    unfold pyIsUpper at hup
    rw [Bool.and_eq_true] at hup
    obtain ⟨c, hcw, hcased⟩ := List.any_eq_true.mp hup.1
    have hws : c.isWhitespace = false := cased_not_ws c hcased
    have hcl : c ∈ l := by
      rcases pyWordsAux_chars l [] w hwmem c hcw with hh | hh
      · cases hh
      · exact hh
    have hne : pyStrip l ≠ [] := pyStrip_ne_nil hcl hws
    have hlne : l ≠ [] := List.ne_nil_of_mem hcl
    simp [is_offensive, List.isEmpty_iff, hne, hlne, is_aggressive_tone, h]

/-- Witness for claim C8 at concrete inputs: a whitespace-only string,
a string with four exclamation marks and a string with four all-caps
words. -/
theorem is_offensive_spec_witness :
    is_offensive (("   ").data) = false ∧
    is_offensive (("Nu vreau!!!!").data) = true ∧
    is_offensive (("ASTA ESTE PREA MULT").data) = true :=
  ⟨(is_offensive_spec _).1 (by decide),
   (is_offensive_spec _).2.1 (by decide),
   (is_offensive_spec _).2.2 (by decide)⟩

/-- One role-tagged message of the OpenAI chat API, and equally one
`schema.ChatMessage` history entry (the code maps one to the other
field-by-field). -/
structure ChatMsg where
  role : String
  content : String
deriving DecidableEq, Repr

/-- Construction of a `schema.ChatMessage` (src/schema.py): the pydantic
model declares `str_strip_whitespace = True`, so both string fields are
whitespace-stripped on validation.  History entries therefore store the
stripped role and content, not the verbatim strings passed in. -/
def mk_chat_message (role content : String) : ChatMsg :=
  ⟨String.mk (pyStrip role.data), String.mk (pyStrip content.data)⟩

/-- `SYSTEM_PROMPT` (src/llm.py). -/
def SYSTEM_PROMPT : String :=
  ("Ești Smart Librarian, un asistent AI care recomandă cărți pe baza preferințelor utilizatorilor. \n\nRolul tău:\n1. Primești preferințe de lectură și recomanzi o singură carte potrivită\n2. Folosești RAG (retriever) pentru a găsi candidatul potrivit din baza de date\n3. Răspunzi conversațional în română\n4. După ce recomanzi titlul, APELEAZĂ OBLIGATORIU tool-ul `get_summary_by_title` cu titlul exact pentru a afișa rezumatul detaliat\n\nFluxul de lucru:\n1. Analizează cererea utilizatorului\n2. Caută în contextul furnizat o carte potrivită\n3. Fă o recomandare clară cu titlul exact\n4. Apelează automat tool-ul pentru rezumatul detaliat\n5. Prezintă rezultatul final\n\nImportant:\n- Recomandă DOAR o carte pe răspuns\n- Folosește titlul EXACT din context pentru tool\n- Fii conversațional și prietenos\n- Explică de ce cartea recomandată se potrivește cu cererea\n- Nu inventezi cărți care nu sunt în context\n\nDacă mesajul conține limbaj nepotrivit, nu apela LLM; răspunde politicos că preferi să păstrezi conversația într-un limbaj adecvat.")

/-- `SmartLibrarian._create_context_message` (src/llm.py): run
`search_books` with `config.DEFAULT_TOP_K = 3` and format the hits as a
numbered list, or a fixed no-results sentence.  (Its `try/except`
branch cannot trigger in the embedding: `search_books` is total.) -/
def create_context_message (st : VSQuery) (books : List Book) (query : String) :
    String :=
  let bs := search_books st books query 3
  if bs.isEmpty then
    ("Nu am găsit cărți relevante pentru această căutare în baza de date.")
  else
    String.intercalate ("\n")
      (("Cărți relevante din baza de date:") ::
        ((List.range bs.length).zip bs).map (fun p =>
          toString (p.1 + 1) ++ (". **") ++ p.2.title ++ ("** - ") ++
            p.2.short_summary ++ (" (Teme: ") ++
            String.intercalate (", ") p.2.themes ++ (")")))

/-- `SmartLibrarian._prepare_messages` (src/llm.py): the system prompt,
the last 6 history turns (`self.conversation_history[-6:]`), the
retrieved-context system message, then the new user turn. -/
def prepare_messages (st : VSQuery) (books : List Book) (history : List ChatMsg)
    (user_query : String) : List ChatMsg :=
  ⟨("system"), SYSTEM_PROMPT⟩ ::
    (pyLastN 6 history ++
      [⟨("system"), ("Context pentru această căutare:\n") ++
          create_context_message st books user_query⟩,
       ⟨("user"), user_query⟩])

/-- The `follow_up_messages` list built inside `chat` (src/llm.py) when
tool results exist: the very `messages` list of the first call plus the
assistant content and a system message with the tool results. -/
def follow_up_messages (st : VSQuery) (books : List Book) (history : List ChatMsg)
    (user_query : String) (final_response : String) (tool_results : String) :
    List ChatMsg :=
  prepare_messages st books history user_query ++
    [⟨("assistant"), final_response⟩,
     ⟨("system"), ("Rezultate tool: ") ++ tool_results⟩]

/-- One tool-call request of the model response: the function name and
the parsed JSON arguments (`none` models a `json.JSONDecodeError` when
parsing the arguments string). -/
structure ToolCallReq where
  function_name : String
  function_args : Option (List (String × String))
deriving DecidableEq

/-- The message of a chat-completion response: optional text content
and the (possibly empty) list of tool-call requests. -/
structure ModelMsg where
  content : Option String
  tool_calls : List ToolCallReq
deriving DecidableEq

/-- `SmartLibrarian._handle_tool_calls` (src/llm.py): execute each
requested call, turning an argument-parse failure or a raised
`ValueError` into a textual error entry, and join the results with
blank lines; it never raises. -/
def handle_tool_calls (summaries : List (String × String)) (tcs : List ToolCallReq) :
    String :=
  String.intercalate ("\n\n") (tcs.map (fun tc =>
    match tc.function_args with
    | none => ("Eroare la parsarea argumentelor pentru ") ++ tc.function_name
    | some args =>
      match execute_tool_call summaries tc.function_name args with
      | Except.ok r => r
      | Except.error e => ("Eroare la executarea tool-ului: ") ++ e))

/-- The fixed refusal of the safety path in `chat` (src/llm.py). -/
def safety_response_text : String :=
  ("Aș prefera să păstrăm conversația într-un limbaj adecvat. Poți reformula, te rog?")

/-- The apology built by the `except` handler of `chat` (src/llm.py)
around the exception text. -/
def apology_text (e : String) : String :=
  ("Ne pare rău, a apărut o eroare: ") ++ e ++ (". Te rog încearcă din nou.")

/-- `SmartLibrarian.chat` (src/llm.py).  The two OpenAI calls are
oracles mapping the message list to either a failure (any exception in
the `try` block, routed to the `except` handler) or a response; the
follow-up call carries no tool schema, so its content is plain text.
On the safety path the fixed refusal is returned; otherwise the first
response's content (with `None` read as `""`) stands unless non-empty
tool results trigger the follow-up call whose content replaces it.
Every path returns the response text and the history extended with a
user turn and an assistant turn, both built through
`ChatMessage(...)` — i.e. `mk_chat_message`, which strips whitespace
from the stored contents while the returned text stays verbatim. -/
def chat (st : VSQuery) (books : List Book) (summaries : List (String × String))
    (first_call : List ChatMsg → Except String ModelMsg)
    (follow_up : List ChatMsg → Except String String)
    (history : List ChatMsg) (user_input : String) : String × List ChatMsg :=
  if is_offensive user_input.data then
    (safety_response_text,
      history ++ [mk_chat_message ("user") user_input,
        mk_chat_message ("assistant") safety_response_text])
  else
    let messages := prepare_messages st books history user_input
    match first_call messages with
    | Except.error e =>
      (apology_text e,
        history ++ [mk_chat_message ("user") user_input,
          mk_chat_message ("assistant") (apology_text e)])
    | Except.ok m =>
      let final0 := m.content.getD ("")
      if m.tool_calls.isEmpty then
        (final0, history ++ [mk_chat_message ("user") user_input,
          mk_chat_message ("assistant") final0])
      else
        let tool_results := handle_tool_calls summaries m.tool_calls
        if tool_results = ("") then
          (final0, history ++ [mk_chat_message ("user") user_input,
            mk_chat_message ("assistant") final0])
        else
          match follow_up
              (follow_up_messages st books history user_input final0 tool_results) with
          | Except.error e =>
            (apology_text e,
              history ++ [mk_chat_message ("user") user_input,
                mk_chat_message ("assistant") (apology_text e)])
          | Except.ok c =>
            (c, history ++ [mk_chat_message ("user") user_input,
              mk_chat_message ("assistant") c])

/-- A seven-turn history for concrete evaluation. -/
def demo_history : List ChatMsg := List.replicate 7 ⟨("user"), ("salut")⟩

/-- Claim C9 (amended): when more than 6 prior turns exist, the context
assembled by `_prepare_messages` contains — besides the system prompt
and the retrieved-context message — exactly the last 6 history turns
followed by the new user turn, never more; and the tool-result
follow-up call reuses this very message list (the same window
constant), merely appending the assistant content and the tool-results
message. -/
theorem prepare_messages_window (st : VSQuery) (books : List Book)
    (history : List ChatMsg) (user_query : String)
    (hlen : 6 < history.length) :
    prepare_messages st books history user_query =
      ⟨("system"), SYSTEM_PROMPT⟩ ::
        (history.drop (history.length - 6) ++
          [⟨("system"), ("Context pentru această căutare:\n") ++
              create_context_message st books user_query⟩,
           ⟨("user"), user_query⟩]) ∧
    (history.drop (history.length - 6)).length = 6 ∧
    (∀ fr tr, follow_up_messages st books history user_query fr tr =
        prepare_messages st books history user_query ++
          [⟨("assistant"), fr⟩, ⟨("system"), ("Rezultate tool: ") ++ tr⟩]) := by
  refine ⟨rfl, ?_, fun fr tr => rfl⟩
  rw [List.length_drop]
  omega

/-- Witness for claim C9 (amended) at a seven-turn history. -/
theorem prepare_messages_window_witness :
    6 < demo_history.length ∧
    (demo_history.drop (demo_history.length - 6)).length = 6 :=
  ⟨by decide,
    (prepare_messages_window empty_index_state demo_books demo_history ("o carte")
      (by decide)).2.1⟩

/-- The spec's reading of the follow-up assembly: the tool-result
follow-up call is assembled with its own explicit window constant,
distinct from the 6 of the context assembly. -/
def FollowUpOwnWindow : Prop :=
  ∃ k, k ≠ 6 ∧ ∀ (st : VSQuery) (books : List Book) (history : List ChatMsg)
      (user_query fr tr : String),
      follow_up_messages st books history user_query fr tr =
        ⟨("system"), SYSTEM_PROMPT⟩ ::
          (pyLastN k history ++
            [⟨("system"), ("Context pentru această căutare:\n") ++
                create_context_message st books user_query⟩,
             ⟨("user"), user_query⟩,
             ⟨("assistant"), fr⟩,
             ⟨("system"), ("Rezultate tool: ") ++ tr⟩])

/-- Counterexample for claim C9: the follow-up call has no window
constant of its own — it reuses the first call's messages, whose
history window is the same 6; assembling it with any other constant
disagrees on a seven-turn history. -/
theorem follow_up_no_own_window : ¬ FollowUpOwnWindow := by
  rintro ⟨k, hk, hall⟩
  have h7 := hall empty_index_state demo_books demo_history ("q") ("a") ("t")
  have hlen := congrArg List.length h7
  simp only [follow_up_messages, prepare_messages, pyLastN, demo_history,
    List.length_append, List.length_cons, List.length_drop, List.length_replicate,
    List.length_nil] at hlen
  omega

/-- A first-call oracle answering with whitespace-padded content and no
tool calls. -/
def c10_first_call : List ChatMsg → Except String ModelMsg :=
  fun _ => Except.ok ⟨some ("raspuns \n"), []⟩

/-- A follow-up oracle that is never reached on the no-tool-calls
path. -/
def c10_follow_up : List ChatMsg → Except String String :=
  fun _ => Except.error ("unused")

/-- Counterexample for claim C10: with a padded benign input and a
padded model answer, `chat` returns the answer verbatim but the two
appended history turns store the whitespace-stripped contents
(`ChatMessage`'s `str_strip_whitespace`), so the appended turns do not
carry the input text and the returned response verbatim. -/
theorem chat_history_strips_counterexample :
    (chat empty_index_state demo_books demo_summaries c10_first_call c10_follow_up
      [] ("  salut  ")).1 = ("raspuns \n") ∧
    (chat empty_index_state demo_books demo_summaries c10_first_call c10_follow_up
      [] ("  salut  ")).2 =
      [⟨("user"), ("salut")⟩, ⟨("assistant"), ("raspuns")⟩] ∧
    (chat empty_index_state demo_books demo_summaries c10_first_call c10_follow_up
      [] ("  salut  ")).2 ≠
      [⟨("user"), ("  salut  ")⟩, ⟨("assistant"), ("raspuns \n")⟩] := by
  refine ⟨by decide, by decide, by decide⟩

/-- Claim C10 (amended): on every execution path — safety-blocked
input, a model failure (the apology path), an answer without tool
calls, empty tool results, a failing follow-up call, or a follow-up
answer — `chat` returns normally and appends exactly two messages to
the history: a user turn with the whitespace-stripped input text
followed by an assistant turn with the whitespace-stripped returned
response (`ChatMessage` strips its string fields on construction; the
returned text itself is not stripped). -/
theorem chat_appends_two_turns (st : VSQuery) (books : List Book)
    (summaries : List (String × String))
    (first_call : List ChatMsg → Except String ModelMsg)
    (follow_up : List ChatMsg → Except String String)
    (history : List ChatMsg) (user_input : String) :
    (chat st books summaries first_call follow_up history user_input).2 =
      history ++
        [mk_chat_message ("user") user_input,
         mk_chat_message ("assistant")
           (chat st books summaries first_call follow_up history user_input).1] := by
  unfold chat
  dsimp only
  split
  · rfl
  · split
    · rfl
    · split
      · rfl
      · split
        · rfl
        · split
          · rfl
          · rfl

end SmartLibrarian
